import Mathlib

/-!
Verification development for the docsend-slack-bot repository.

The repository contains several revisions of one Node.js program that drives a
headless browser over a gated, paginated document viewer and assembles the
captured page rasters into a PDF.  This file gives a shallow embedding of the
revision-specific capture loops, the PDF assembly functions and the
orchestration and credential logic, and proves or refutes the frozen claims
about them.

Modelling conventions:
  - JS strings are embedded as `List Char`; JS byte buffers as `List Nat`.
  - The browser is modelled as a zipper over the finite list of document
    pages: the current page plus the list of pages still ahead.  Pressing
    ArrowRight on the last page leaves the browser on that page, which is
    exactly the behaviour the capture loops rely on for termination.
  - `while` loops with mutable accumulators become structural recursions on
    the list of remaining pages; each equation is annotated with the source
    lines it mirrors.
  - Fallible code returns `Except String`, carrying the thrown messages.
-/

/-- A rendered document page as the capture loops observe it: the raster
bytes a screenshot of the page produces, and the value of
`span[aria-label="page number"]` (`none` when the element is absent, i.e.
`document.querySelector` returned `null` and `current` is JS `null`). -/
structure VPage where
  raster : List Nat
  label : Option Int
deriving DecidableEq

namespace LabelWalk

/-- Embedding of the body of `capturePages` (src/unnamed/part_006 lines
160-180, identically src/unnamed/part_004 lines 1452-1472).  The JS loop is

  while (true) (
    shot = screenshot; screenshots.push(shot);
    current = page number label or null;
    if (current === lastPage) break;
    lastPage = current; ArrowRight; wait )

`cur` is the page currently rendered, `rest` the pages ahead of it, and
`lastPage` the JS variable of the same name.  The screenshot is pushed
before the termination check, so the final iteration contributes its raster
to the output.  When `rest` is empty, ArrowRight is a no-op: the next
iteration re-screenshots the same page, reads the same label, and the
`current === lastPage` check stops the loop after pushing the duplicate —
that one-step unfolding is inlined as the extra `cur.raster`. -/
def capLoop : List VPage → VPage → Option Int → List (List Nat)
  | rest, cur, lastPage =>
    if cur.label = lastPage then [cur.raster]
    else
      cur.raster ::
        (match rest with
          | [] => [cur.raster]
          | p :: ps => capLoop ps p cur.label)

/-- `capturePages` on a document whose pages are `first :: rest`, starting
from the first page with `lastPage = null` (src/unnamed/part_006 lines
160-162: `let lastPage = null`). -/
def capturePages (first : VPage) (rest : List VPage) : List (List Nat) :=
  capLoop rest first none

/-- Unfolding of the loop when every page label differs from its successor
and the initial `lastPage` differs from the first label: the loop walks the
whole document, emits every raster in order, and then emits one extra
raster of the last page before the label check stops it. -/
theorem capLoop_chain (rest : List VPage) :
    ∀ (cur : VPage) (lastPage : Option Int),
      cur.label ≠ lastPage →
      List.Chain' (fun a b => a.label ≠ b.label) (cur :: rest) →
      capLoop rest cur lastPage =
        (cur :: rest).map VPage.raster ++
          [((cur :: rest).getLast (List.cons_ne_nil _ _)).raster] := by
  induction rest with
  | nil =>
    intro cur lastPage hne _
    simp [capLoop, hne]
  | cons p ps ih =>
    intro cur lastPage hne hch
    rw [List.chain'_cons] at hch
    have h1 : p.label ≠ cur.label := Ne.symm hch.1
    have h2 := ih p cur.label h1 hch.2
    have hlast : (cur :: p :: ps).getLast (List.cons_ne_nil _ _) =
        (p :: ps).getLast (List.cons_ne_nil _ _) := List.getLast_cons _
    rw [capLoop, if_neg hne]
    simp only [h2, hlast, List.map_cons, List.cons_append]

end LabelWalk

/-- Embedding of the single-page branch of `convertDocSendToPDF` in
src/app.js lines 325-340: take one screenshot, throw if the buffer is
empty, otherwise the capture list is exactly that one screenshot. -/
def appSinglePageCapture (shot : List Nat) : Except String (List (List Nat)) :=
  if shot.length = 0 then
    .error "Failed to capture screenshot for single page document"
  else .ok [shot]

/-- Claim C1 counterexample.  A 2-page document with exposed, distinct page
labels 1 and 2: `capturePages` returns 3 captures, not 2, and the third is
byte-identical to the second — the loop appends the screenshot before the
`current === lastPage` termination check, so the final iteration's
duplicate capture is kept. -/
theorem claim1_counterexample :
    LabelWalk.capturePages ⟨[10], some 1⟩ [⟨[20], some 2⟩] =
      [[10], [20], [20]] ∧
    (LabelWalk.capturePages ⟨[10], some 1⟩ [⟨[20], some 2⟩]).length ≠ 2 := by
  constructor
  · rfl
  · decide

/-- Claim C1 (amended).  For every N-page document whose page labels are all
exposed and pairwise distinct, `capturePages` walks every page in order and
never drops one, but returns N+1 captures rather than N: the page rasters
in document order followed by one extra byte-identical capture of the last
page, because the screenshot is pushed before the termination check. -/
theorem claim1_amended (first : VPage) (rest : List VPage)
    (hexp : ∀ p ∈ first :: rest, p.label.isSome)
    (hdist : (first :: rest).Pairwise (fun a b => a.label ≠ b.label)) :
    LabelWalk.capturePages first rest =
      (first :: rest).map VPage.raster ++
        [((first :: rest).getLast (List.cons_ne_nil _ _)).raster] := by
  have hfirst : first.label ≠ none := by
    have := hexp first (List.mem_cons_self _ _)
    exact Option.isSome_iff_ne_none.mp this
  exact LabelWalk.capLoop_chain rest first none hfirst hdist.chain'

/-- Claim C1 amended theorem evaluated on a concrete 3-page document with
labels 1, 2, 3: the output is the three rasters in order plus a duplicate
of the last. -/
theorem claim1_amended_witness :
    LabelWalk.capturePages ⟨[1], some 1⟩ [⟨[2], some 2⟩, ⟨[3], some 3⟩] =
      [[1], [2], [3], [3]] := by
  have h := claim1_amended ⟨[1], some 1⟩ [⟨[2], some 2⟩, ⟨[3], some 3⟩]
    (by decide) (by decide)
  rw [h]; rfl

/-- Claim C2 counterexample.  A single-page document whose page-number
label is exposed (label 1): `capturePages` returns 2 captures, not 1.  The
first iteration pushes the screenshot and sets `lastPage` to the label; the
ArrowRight is a no-op, and the second iteration pushes a byte-identical
screenshot before the label check stops the loop. -/
theorem claim2_counterexample :
    LabelWalk.capturePages ⟨[7], some 1⟩ [] = [[7], [7]] ∧
    (LabelWalk.capturePages ⟨[7], some 1⟩ []).length ≠ 1 := by
  constructor
  · rfl
  · decide

/-- Claim C2 (amended).  A single-page document yields exactly one capture
from `capturePages` only when no page-number label is exposed (the first
iteration reads `null`, which equals the initial `lastPage = null`, so the
loop stops after one screenshot).  When a label is exposed it yields two
captures, the second byte-identical to the first.  The single-page branch
of the src/app.js walker (lines 325-340) yields exactly one capture
whenever the snapshot buffer is non-empty. -/
theorem claim2_amended (r : List Nat) (l : Int) (shot : List Nat)
    (hshot : shot.length ≠ 0) :
    LabelWalk.capturePages ⟨r, none⟩ [] = [r] ∧
    LabelWalk.capturePages ⟨r, some l⟩ [] = [r, r] ∧
    appSinglePageCapture shot = .ok [shot] := by
  refine ⟨?_, ?_, ?_⟩
  · simp [LabelWalk.capturePages, LabelWalk.capLoop]
  · simp [LabelWalk.capturePages, LabelWalk.capLoop]
  · simp [appSinglePageCapture, hshot]

/-- Claim C2 amended theorem evaluated concretely: raster [5] with no
label gives one capture, with label 3 gives two, and the app.js single-page
branch on the non-empty buffer [9] gives exactly one capture. -/
theorem claim2_amended_witness :
    LabelWalk.capturePages ⟨[5], none⟩ [] = [[5]] ∧
    LabelWalk.capturePages ⟨[5], some 3⟩ [] = [[5], [5]] ∧
    appSinglePageCapture [9] = .ok [[9]] :=
  claim2_amended [5] 3 [9] (by decide)

namespace RasterWalk

/-- Embedding of the raster-comparison capture loop inside
`convertDocSendToPDF` (src/unnamed/part_003 lines 574-627).  The JS loop is

  while (hasNextPage) (
    click center; screenshot := screenshot of current page;
    if invalid buffer throw "Failed to capture screenshot for page N";
    screenshots.push(screenshot);
    press ArrowRight; wait;
    newScreenshot := screenshot of current page;
    if (Buffer.compare(screenshot, newScreenshot) === 0) hasNextPage := false
    else pageNumber++ )

`cur` is the raster of the currently rendered page, `rest` the rasters of
the pages ahead, `pageNumber` the JS counter used in the error message.
When `rest` is empty the ArrowRight is a no-op, `newScreenshot` equals
`screenshot`, and the loop stops; the byte-identical `newScreenshot` is
discarded, never pushed.  The returned `Nat` counts loop iterations, i.e.
ArrowRight advance attempts. -/
def captureLoop : List (List Nat) → List Nat → Nat →
    Except String (List (List Nat) × Nat)
  | rest, cur, pageNumber =>
    if cur.length = 0 then
      .error ("Failed to capture screenshot for page " ++ toString pageNumber)
    else
      match rest with
      | [] => .ok ([cur], 1)
      | p :: ps =>
        if p = cur then .ok ([cur], 1)
        else
          match captureLoop ps p (pageNumber + 1) with
          | .ok (tl, n) => .ok (cur :: tl, n + 1)
          | .error e => .error e

/-- The raster walk over a document whose page rasters are
`first :: rest`, starting at page number 1 (src/unnamed/part_003 line 571:
`let pageNumber = 1`). -/
def captureScreenshots (first : List Nat) (rest : List (List Nat)) :
    Except String (List (List Nat) × Nat) :=
  captureLoop rest first 1

/-- Generalised invariant of the raster loop: on any finite document whose
page rasters are non-empty buffers, the loop returns (no error, no
divergence), emits at least one and at most page-count captures using
exactly one advance attempt per emitted capture, the first capture is the
starting page, and no two consecutive captures are byte-identical — the
byte-identical duplicate that signals termination is discarded. -/
theorem captureLoop_ok : ∀ (rest : List (List Nat)) (cur : List Nat)
    (k : Nat), cur.length ≠ 0 → (∀ p ∈ rest, p.length ≠ 0) →
    ∃ out n, captureLoop rest cur k = .ok (out, n) ∧
      out ≠ [] ∧ out.length = n ∧ n ≤ rest.length + 1 ∧
      out.head? = some cur ∧ List.Chain' (fun a b => a ≠ b) out := by
  intro rest
  induction rest with
  | nil =>
    intro cur k hcur _
    refine ⟨[cur], 1, ?_, by simp, by simp, by simp, by simp, by simp⟩
    simp [captureLoop, hcur]
  | cons p ps ih =>
    intro cur k hcur hrest
    by_cases hpc : p = cur
    · refine ⟨[cur], 1, ?_, by simp, by simp, by simp, by simp, by simp⟩
      simp [captureLoop, hcur, hpc]
    · obtain ⟨tl, n, htl, htlne, htllen, htlbound, htlhead, htlch⟩ :=
        ih p (k + 1) (hrest p (List.mem_cons_self _ _))
          (fun q hq => hrest q (List.mem_cons_of_mem _ hq))
      refine ⟨cur :: tl, n + 1, ?_, by simp, by simp [htllen], ?_, by simp, ?_⟩
      · simp [captureLoop, hcur, hpc, htl]
      · simpa using Nat.add_le_add_right htlbound 1
      · rw [List.chain'_cons']
        refine ⟨?_, htlch⟩
        intro b hb
        rw [htlhead] at hb
        cases hb
        exact fun h => hpc h.symm

end RasterWalk

/-- Claim C3.  With page labels unavailable, the raster walk of
src/unnamed/part_003 terminates on every finite document (all of whose
snapshots are non-empty buffers) within a bounded number of advance
attempts — at most one per document page — returning at least one capture;
byte-for-byte comparison of the new raster against the previous one is the
termination signal, and the byte-identical duplicate is discarded, so no
two consecutive captures in the output are byte-identical. -/
theorem claim3_theorem (first : List Nat) (rest : List (List Nat))
    (hfirst : first.length ≠ 0) (hrest : ∀ p ∈ rest, p.length ≠ 0) :
    ∃ out n, RasterWalk.captureScreenshots first rest = .ok (out, n) ∧
      1 ≤ out.length ∧ out.length ≤ rest.length + 1 ∧
      n ≤ rest.length + 1 ∧
      List.Chain' (fun a b => a ≠ b) out := by
  obtain ⟨out, n, hok, hne, hlen, hbound, _, hch⟩ :=
    RasterWalk.captureLoop_ok rest first 1 hfirst hrest
  exact ⟨out, n, hok, List.length_pos.mpr hne, hlen ▸ hbound, hbound, hch⟩

/-- Claim C3 theorem evaluated on a concrete 3-page document with pairwise
distinct, non-empty page rasters. -/
theorem claim3_witness :
    ∃ out n, RasterWalk.captureScreenshots [1] [[2], [3]] = .ok (out, n) ∧
      1 ≤ out.length ∧ out.length ≤ 3 ∧ n ≤ 3 ∧
      List.Chain' (fun a b => a ≠ b) out :=
  claim3_theorem [1] [[2], [3]] (by decide) (by decide)

/-- Boolean check that the first list starts with the second's content —
the embedding of Buffer/string startsWith-style checks used both for the
PDF magic-header validation and (over characters) substring search. -/
def leadsWith {α : Type} [DecidableEq α] : List α → List α → Bool
  | [], _ => true
  | _ :: _, [] => false
  | a :: as, b :: bs => if a = b then leadsWith as bs else false

theorem leadsWith_iff {α : Type} [DecidableEq α] (n : List α) :
    ∀ h : List α, leadsWith n h = true ↔ ∃ t, h = n ++ t := by
  induction n with
  | nil => intro h; simp [leadsWith]
  | cons a as ih =>
    intro h
    cases h with
    | nil => simp [leadsWith]
    | cons b bs =>
      constructor
      · intro hl
        rw [leadsWith] at hl
        by_cases hab : a = b
        · rw [if_pos hab] at hl
          obtain ⟨t, ht⟩ := (ih bs).mp hl
          exact ⟨t, by simp [hab, ht]⟩
        · simp [if_neg hab] at hl
      · rintro ⟨t, ht⟩
        rw [List.cons_append] at ht
        injection ht with h1 h2
        rw [leadsWith, if_pos h1.symm]
        exact (ih bs).mpr ⟨t, h2⟩

theorem leadsWith_append {α : Type} [DecidableEq α] (l t : List α) :
    leadsWith l (l ++ t) = true :=
  (leadsWith_iff l (l ++ t)).mpr ⟨t, rfl⟩

/-- The image formats the two assembler revisions embed. -/
inductive ImageFormat
  | png
  | jpeg
deriving DecidableEq

/-- An image embedded into the PDF document, as pdf-lib's embedPng/embedJpg
return it: a handle carrying the decoded pixel dimensions. -/
structure EmbeddedImage where
  format : ImageFormat
  width : Nat
  height : Nat
deriving DecidableEq

/-- Model of pdf-lib's embedJpg: decoding succeeds exactly on buffers that
begin with the JPEG SOI marker 0xFF 0xD8, and yields the pixel dimensions
encoded in the stream — modelled as read from the two bytes after the
marker, offset by one so they are non-zero.  Anything else throws, i.e.
returns none.  (pdf-lib's real parser reads the SOF segment; only success
or failure and the produced dimensions matter to the claims.) -/
def embedJpg (b : List Nat) : Option EmbeddedImage :=
  match b with
  | b0 :: b1 :: w :: h :: _ =>
    if b0 = 255 ∧ b1 = 216 then some ⟨ImageFormat.jpeg, w + 1, h + 1⟩ else none
  | _ => none

/-- Model of pdf-lib's embedPng, analogously keyed on the first bytes of
the 8-byte PNG signature 0x89 0x50 0x4E 0x47. -/
def embedPng (b : List Nat) : Option EmbeddedImage :=
  match b with
  | b0 :: b1 :: b2 :: b3 :: w :: h :: _ =>
    if b0 = 137 ∧ b1 = 80 ∧ b2 = 78 ∧ b3 = 71 then
      some ⟨ImageFormat.png, w + 1, h + 1⟩
    else none
  | _ => none

/-- One drawImage call recorded on a page: the embedded image and the
placement rectangle passed to pdf-lib's page.drawImage. -/
structure ImageDraw where
  img : EmbeddedImage
  x : Nat
  y : Nat
  width : Nat
  height : Nat
deriving DecidableEq

/-- One PDF page: its media-box dimensions as passed to pdfDoc.addPage and
the drawImage calls performed on it. -/
structure PDFPage where
  width : Nat
  height : Nat
  draws : List ImageDraw
deriving DecidableEq, Inhabited

/-- The page both assembler revisions create per capture
(src/unnamed/part_004 lines 1776-1784, src/app.js lines 364-386):
pdfDoc.addPage([img.width, img.height]) followed by page.drawImage(img,
(x:0, y:0, width:img.width, height:img.height)). -/
def mkImagePage (img : EmbeddedImage) : PDFPage :=
  { width := img.width, height := img.height,
    draws := [{ img := img, x := 0, y := 0,
                width := img.width, height := img.height }] }

/-- The bytes "%PDF-": the PDF magic header. -/
def pdfMagic : List Nat := [37, 80, 68, 70, 45]

/-- A serialized PDF as pdfDoc.save returns it: the byte buffer, the page
count declared in the document's page tree, and the serialized pages. -/
structure SavedPDF where
  bytes : List Nat
  declaredPageCount : Nat
  pages : List PDFPage
deriving DecidableEq

/-- pdf-lib's default page (US Letter, 612x792 points), appended by save
when addDefaultPage is in effect and the document has no pages. -/
def defaultBlankPage : PDFPage := { width := 612, height := 792, draws := [] }

/-- Model of pdf-lib's PDFDocument.save.  Per pdf-lib's documented
behaviour: when the addDefaultPage option is true (its default) and the
document has no pages, one default blank page is appended before
serialization; the serialized bytes start with the "%PDF-" header followed
by the document skeleton (catalog, page tree, cross-reference table,
trailer — a real minimal pdf-lib document is about 565 bytes, modelled as
an opaque 555-byte block) plus an opaque block per page; the declared page
count equals the number of serialized pages. -/
def savePDF (pages : List PDFPage) (addDefaultPage : Bool) : SavedPDF :=
  let ps := if addDefaultPage && pages.isEmpty then [defaultBlankPage] else pages
  { bytes := pdfMagic ++ List.replicate (555 + 120 * ps.length) 0,
    declaredPageCount := ps.length,
    pages := ps }

namespace PdfRev

/-- Per-screenshot processing of `createPDFFromScreenshots`
(src/unnamed/part_004 lines 1761-1790): throw on an empty/invalid buffer,
embed the buffer as JPEG (throwing on decode failure), then add a page
sized to the image dimensions and draw the image on it at the origin. -/
def processScreenshot (i : Nat) (shot : List Nat) : Except String PDFPage :=
  if shot.length = 0 then
    .error ("Invalid screenshot buffer for page " ++ toString (i + 1))
  else
    match embedJpg shot with
    | none => .error ("Failed to process screenshot " ++ toString (i + 1))
    | some img => .ok (mkImagePage img)

/-- The assembler's for-loop over the screenshot list, index 0 upward. -/
def buildPages : List (List Nat) → Nat → Except String (List PDFPage)
  | [], _ => .ok []
  | s :: rest, i =>
    match processScreenshot i s with
    | .error e => .error e
    | .ok p =>
      match buildPages rest (i + 1) with
      | .error e => .error e
      | .ok ps => .ok (p :: ps)

/-- Embedding of `createPDFFromScreenshots` (src/unnamed/part_004 lines
1753-1819): build one page per screenshot, save with useObjectStreams and
addDefaultPage:false, then validate the buffer — non-empty, at least 100
bytes, and its first five bytes are the "%PDF-" magic header — throwing on
any validation failure. -/
def createPDFFromScreenshots (screens : List (List Nat)) :
    Except String SavedPDF :=
  match buildPages screens 0 with
  | .error e => .error e
  | .ok pages =>
    let saved := savePDF pages false
    if saved.bytes.length = 0 then
      .error "Generated PDF buffer is invalid or empty"
    else if saved.bytes.length < 100 || !(leadsWith pdfMagic saved.bytes) then
      .error "Generated PDF buffer does not contain valid PDF data"
    else .ok saved

end PdfRev

namespace AppJs

/-- Per-screenshot processing of `createPDFFromScreenshots` in src/app.js
lines 357-396: first try to embed the buffer as PNG; on failure fall back
to JPEG; when both decoders fail the whole assembly throws.  Either
successful branch adds a page sized to the image and draws the image at
the origin. -/
def processScreenshot (i : Nat) (shot : List Nat) : Except String PDFPage :=
  match embedPng shot with
  | some img => .ok (mkImagePage img)
  | none =>
    match embedJpg shot with
    | some img => .ok (mkImagePage img)
    | none => .error ("Failed to process screenshot " ++ toString (i + 1))

/-- The src/app.js assembler's for-loop over the screenshot list. -/
def buildPages : List (List Nat) → Nat → Except String (List PDFPage)
  | [], _ => .ok []
  | s :: rest, i =>
    match processScreenshot i s with
    | .error e => .error e
    | .ok p =>
      match buildPages rest (i + 1) with
      | .error e => .error e
      | .ok ps => .ok (p :: ps)

/-- Embedding of `createPDFFromScreenshots` in src/app.js lines 353-401:
build one page per screenshot and call pdfDoc.save() with no options, so
pdf-lib's default addDefaultPage = true is in effect; the result is
returned without further validation. -/
def createPDFFromScreenshots (screens : List (List Nat)) :
    Except String SavedPDF :=
  match buildPages screens 0 with
  | .error e => .error e
  | .ok pages => .ok (savePDF pages true)

end AppJs

/-- The declared page count of an assembly result, none when the assembly
threw. -/
def resultPageCount : Except String SavedPDF → Option Nat
  | .ok r => some r.declaredPageCount
  | .error _ => none

theorem embedJpg_isSome_length {s : List Nat} (h : (embedJpg s).isSome) :
    s.length ≠ 0 := by
  cases s with
  | nil => simp [embedJpg] at h
  | cons a t => simp

namespace PdfRev

theorem processScreenshot_ok {i : Nat} {s : List Nat} {p : PDFPage}
    (h : processScreenshot i s = .ok p) :
    ∃ img, embedJpg s = some img ∧ p = mkImagePage img := by
  unfold processScreenshot at h
  split at h
  · exact absurd h (by simp)
  · cases hemb : embedJpg s with
    | none => rw [hemb] at h; simp at h
    | some img =>
      rw [hemb] at h
      simp only [Except.ok.injEq] at h
      exact ⟨img, rfl, h.symm⟩

theorem processScreenshot_of_isSome {i : Nat} {s : List Nat}
    {img : EmbeddedImage} (h : embedJpg s = some img) :
    processScreenshot i s = .ok (mkImagePage img) := by
  have hlen : s.length ≠ 0 :=
    embedJpg_isSome_length (by simp [h])
  unfold processScreenshot
  rw [if_neg hlen, h]

/-- Every screenshot JPEG-decodable implies the page-building loop
succeeds, producing one page per screenshot. -/
theorem buildPages_ok : ∀ (screens : List (List Nat)),
    (∀ s ∈ screens, (embedJpg s).isSome) →
    ∀ i, ∃ pages, buildPages screens i = .ok pages ∧
      pages.length = screens.length := by
  intro screens
  induction screens with
  | nil => intro _ i; exact ⟨[], rfl, rfl⟩
  | cons s rest ih =>
    intro hdec i
    obtain ⟨img, himg⟩ := Option.isSome_iff_exists.mp
      (hdec s (List.mem_cons_self _ _))
    obtain ⟨ps, hps, hpslen⟩ :=
      ih (fun q hq => hdec q (List.mem_cons_of_mem _ hq)) (i + 1)
    refine ⟨mkImagePage img :: ps, ?_, by simp [hpslen]⟩
    rw [buildPages, processScreenshot_of_isSome himg, hps]

/-- Inversion of the page-building loop: a successful build aligns pages
with screenshots index by index, each page created from the decoded image
of its screenshot. -/
theorem buildPages_spec : ∀ (screens : List (List Nat)) (i : Nat)
    (pages : List PDFPage), buildPages screens i = .ok pages →
    pages.length = screens.length ∧
    ∀ j, j < screens.length →
      ∃ img, embedJpg (screens.getD j []) = some img ∧
        pages.getD j default = mkImagePage img := by
  intro screens
  induction screens with
  | nil =>
    intro i pages hok
    simp only [buildPages, Except.ok.injEq] at hok
    subst hok
    exact ⟨rfl, fun j hj => absurd hj (by simp)⟩
  | cons s rest ih =>
    intro i pages hok
    rw [buildPages] at hok
    cases hps : processScreenshot i s with
    | error e => rw [hps] at hok; simp at hok
    | ok p =>
      rw [hps] at hok
      cases hrec : buildPages rest (i + 1) with
      | error e => rw [hrec] at hok; simp at hok
      | ok ps =>
        rw [hrec] at hok
        simp only [Except.ok.injEq] at hok
        subst hok
        obtain ⟨hlen, hall⟩ := ih (i + 1) ps hrec
        obtain ⟨img, himg, hp⟩ := processScreenshot_ok hps
        refine ⟨by simp [hlen], ?_⟩
        intro j hj
        cases j with
        | zero => exact ⟨img, by simpa using himg, by simpa using hp⟩
        | succ j =>
          have hj' : j < rest.length := by simpa using hj
          obtain ⟨img', himg', hp'⟩ := hall j hj'
          exact ⟨img', by simpa using himg', by simpa using hp'⟩

/-- A successful page build always passes the post-save validation: the
serialized bytes carry the magic header and exceed the minimum length, so
the assembler returns the saved document (addDefaultPage:false). -/
theorem create_ok_of_buildPages {screens : List (List Nat)}
    {pages : List PDFPage} (hbuild : buildPages screens 0 = .ok pages) :
    createPDFFromScreenshots screens = .ok (savePDF pages false) := by
  have hbytes : (savePDF pages false).bytes =
      pdfMagic ++ List.replicate (555 + 120 * pages.length) 0 := rfl
  have hlen : (savePDF pages false).bytes.length = 560 + 120 * pages.length := by
    rw [hbytes]
    simp [pdfMagic]
    omega
  have hpre : leadsWith pdfMagic (savePDF pages false).bytes = true := by
    rw [hbytes]; exact leadsWith_append _ _
  have h0 : ¬ ((savePDF pages false).bytes.length = 0) := by
    rw [hlen]; omega
  have hcond : ¬ ((decide ((savePDF pages false).bytes.length < 100) ||
      !(leadsWith pdfMagic (savePDF pages false).bytes)) = true) := by
    rw [hpre, hlen]
    simp only [Bool.not_true, Bool.or_false, decide_eq_true_eq]
    omega
  unfold createPDFFromScreenshots
  rw [hbuild]
  simp only [if_neg h0, if_neg hcond]

/-- Inversion of the assembler: a returned document is the saved build. -/
theorem create_inv {screens : List (List Nat)} {r : SavedPDF}
    (h : createPDFFromScreenshots screens = .ok r) :
    ∃ pages, buildPages screens 0 = .ok pages ∧ r = savePDF pages false := by
  unfold createPDFFromScreenshots at h
  split at h
  · simp at h
  · rename_i pages heq
    refine ⟨pages, heq, ?_⟩
    dsimp only at h
    split at h
    · simp at h
    · split at h
      · simp at h
      · simp only [Except.ok.injEq] at h
        exact h.symm

end PdfRev

/-- savePDF on a non-empty page list never adds the default page,
whichever addDefaultPage flag is passed. -/
theorem savePDF_ne_nil (pages : List PDFPage) (h : pages ≠ []) (b : Bool) :
    savePDF pages b =
      { bytes := pdfMagic ++ List.replicate (555 + 120 * pages.length) 0,
        declaredPageCount := pages.length, pages := pages } := by
  cases pages with
  | nil => exact absurd rfl h
  | cons q qs => simp [savePDF]

namespace AppJs

theorem processScreenshot_ok_of_jpg {i : Nat} {s : List Nat}
    (h : (embedJpg s).isSome) : ∃ p, processScreenshot i s = .ok p := by
  unfold processScreenshot
  cases hp : embedPng s with
  | some img => exact ⟨mkImagePage img, rfl⟩
  | none =>
    obtain ⟨img, himg⟩ := Option.isSome_iff_exists.mp h
    rw [himg]
    exact ⟨mkImagePage img, rfl⟩

theorem appBuildPages_ok : ∀ (screens : List (List Nat)),
    (∀ s ∈ screens, (embedJpg s).isSome) →
    ∀ i, ∃ pages, buildPages screens i = .ok pages ∧
      pages.length = screens.length := by
  intro screens
  induction screens with
  | nil => intro _ i; exact ⟨[], rfl, rfl⟩
  | cons s rest ih =>
    intro hdec i
    obtain ⟨p, hp⟩ :=
      processScreenshot_ok_of_jpg (i := i) (hdec s (List.mem_cons_self _ _))
    obtain ⟨ps, hps, hpslen⟩ :=
      ih (fun q hq => hdec q (List.mem_cons_of_mem _ hq)) (i + 1)
    refine ⟨p :: ps, ?_, by simp [hpslen]⟩
    rw [buildPages, hp, hps]

end AppJs

/-- Claim C4.  For every non-empty list of JPEG-decodable captures, both
assembler revisions succeed, and the PDF each returns begins with the
"%PDF-" magic bytes and declares a page count equal to the number of input
captures: the part_004 revision validates the header itself and saves with
addDefaultPage:false, and the src/app.js revision adds exactly one page
per capture before saving, so with a non-empty input pdf-lib's default
blank page is never added. -/
theorem claim4_theorem (screens : List (List Nat)) (hne : screens ≠ [])
    (hdec : ∀ s ∈ screens, (embedJpg s).isSome) :
    (∃ r, PdfRev.createPDFFromScreenshots screens = .ok r ∧
       leadsWith pdfMagic r.bytes = true ∧
       r.declaredPageCount = screens.length) ∧
    (∃ r, AppJs.createPDFFromScreenshots screens = .ok r ∧
       leadsWith pdfMagic r.bytes = true ∧
       r.declaredPageCount = screens.length) := by
  constructor
  · obtain ⟨pages, hbuild, hlen⟩ := PdfRev.buildPages_ok screens hdec 0
    have hpne : pages ≠ [] := by
      intro hnil
      exact hne (List.length_eq_zero.mp (by rw [← hlen, hnil]; rfl))
    refine ⟨savePDF pages false, PdfRev.create_ok_of_buildPages hbuild, ?_, ?_⟩
    · rw [savePDF_ne_nil pages hpne false]
      exact leadsWith_append _ _
    · rw [savePDF_ne_nil pages hpne false, hlen]
  · obtain ⟨pages, hbuild, hlen⟩ := AppJs.appBuildPages_ok screens hdec 0
    have hpne : pages ≠ [] := by
      intro hnil
      exact hne (List.length_eq_zero.mp (by rw [← hlen, hnil]; rfl))
    have hcreate : AppJs.createPDFFromScreenshots screens =
        .ok (savePDF pages true) := by
      unfold AppJs.createPDFFromScreenshots
      rw [hbuild]
    refine ⟨savePDF pages true, hcreate, ?_, ?_⟩
    · rw [savePDF_ne_nil pages hpne true]
      exact leadsWith_append _ _
    · rw [savePDF_ne_nil pages hpne true, hlen]

/-- Claim C4 theorem evaluated on one concrete JPEG-decodable capture. -/
theorem claim4_witness :
    (∃ r, PdfRev.createPDFFromScreenshots [[255, 216, 2, 3]] = .ok r ∧
       leadsWith pdfMagic r.bytes = true ∧ r.declaredPageCount = 1) ∧
    (∃ r, AppJs.createPDFFromScreenshots [[255, 216, 2, 3]] = .ok r ∧
       leadsWith pdfMagic r.bytes = true ∧ r.declaredPageCount = 1) :=
  claim4_theorem [[255, 216, 2, 3]] (by decide) (by decide)

/-- Claim C5.  Whenever the part_004 assembler returns a document, it holds
one PDF page per capture, in capture order, and the page at each index is
sized exactly to the decoded pixel width and height of the capture at that
index, with the image drawn once at origin (0,0) filling the page. -/
theorem claim5_theorem (screens : List (List Nat)) (r : SavedPDF)
    (hok : PdfRev.createPDFFromScreenshots screens = .ok r) :
    r.pages.length = screens.length ∧
    ∀ j, j < screens.length →
      ∃ img, embedJpg (screens.getD j []) = some img ∧
        (r.pages.getD j default).width = img.width ∧
        (r.pages.getD j default).height = img.height ∧
        (r.pages.getD j default).draws =
          [{ img := img, x := 0, y := 0,
             width := img.width, height := img.height }] := by
  obtain ⟨pages, hbuild, hr⟩ := PdfRev.create_inv hok
  obtain ⟨hlen, hall⟩ := PdfRev.buildPages_spec screens 0 pages hbuild
  have hpages : r.pages = pages := by
    rw [hr]; rfl
  rw [hpages]
  refine ⟨hlen, ?_⟩
  intro j hj
  obtain ⟨img, himg, hp⟩ := hall j hj
  exact ⟨img, himg, by rw [hp]; rfl, by rw [hp]; rfl, by rw [hp]; rfl⟩

set_option maxRecDepth 10000 in
/-- Claim C5 theorem evaluated on one concrete capture with decoded
dimensions 5 by 6. -/
theorem claim5_witness :
    PdfRev.createPDFFromScreenshots [[255, 216, 4, 5]] =
      .ok (savePDF [mkImagePage ⟨ImageFormat.jpeg, 5, 6⟩] false) ∧
    (savePDF [mkImagePage ⟨ImageFormat.jpeg, 5, 6⟩] false).pages.length = 1 := by
  have hok : PdfRev.createPDFFromScreenshots [[255, 216, 4, 5]] =
      .ok (savePDF [mkImagePage ⟨ImageFormat.jpeg, 5, 6⟩] false) := by rfl
  refine ⟨hok, ?_⟩
  have h := (claim5_theorem [[255, 216, 4, 5]] _ hok).1
  simpa using h

/-- Claim C6 counterexample.  On the empty capture list the src/app.js
assembler (a cited source of the claim) neither fails explicitly nor
returns a zero-page PDF: pdfDoc.save() is called without options, pdf-lib's
default addDefaultPage:true appends a blank default page, and the returned
PDF declares one page. -/
theorem claim6_counterexample :
    resultPageCount (AppJs.createPDFFromScreenshots []) = some 1 ∧
    resultPageCount (AppJs.createPDFFromScreenshots []) ≠ some 0 := by
  constructor
  · rfl
  · decide

set_option maxRecDepth 10000 in
/-- Claim C6 (amended).  The empty-input behaviour is decided but differs
between revisions: the part_004 assembler (save with addDefaultPage:false)
returns a zero-page PDF without failing, satisfying the claimed dichotomy,
while the src/app.js assembler (save with pdf-lib defaults) returns a
one-page PDF containing a default blank page, satisfying neither arm. -/
theorem claim6_amended :
    PdfRev.createPDFFromScreenshots [] = .ok (savePDF [] false) ∧
    (savePDF [] false).declaredPageCount = 0 ∧
    AppJs.createPDFFromScreenshots [] = .ok (savePDF [] true) ∧
    (savePDF [] true).declaredPageCount = 1 :=
  ⟨rfl, rfl, rfl, rfl⟩

namespace Orch

/-- The outcomes of the environment-dependent phases of one run of
`convertDocSendToPDF` (src/unnamed/part_004 lines 1477-1750): whether
puppeteer.launch succeeded, what the navigation/consent/email/passcode
phase (lines 1531-1710) did, what `capturePages` (line 1713) did, and what
the single fallback screenshot (line 1735) would produce.  Each component
either completes or throws with a message. -/
structure RunOutcome where
  launchOk : Bool
  gateResult : Except String Unit
  captureResult : Except String (List (List Nat))
  fallbackShot : Except String (List Nat)

/-- The observable result of one run: what the function returns or throws,
whether the finally block closed the browser (lines 1745-1749:
`finally ( if (browser) await browser.close() )`), and how many times the
fallback screenshot path was attempted. -/
structure RunResult where
  result : Except String (List (List Nat))
  browserClosed : Bool
  fallbackAttempts : Nat

/-- Embedding of the control flow of `convertDocSendToPDF`
(src/unnamed/part_004 lines 1477-1750).  `browser` is declared before the
try block and assigned by puppeteer.launch inside it; if launch throws,
`browser` is undefined and the finally guard skips close (no browser was
acquired).  Otherwise every exit — gate error, capture success, fallback
success, fallback failure — passes through the finally block, which closes
the browser.  When `capturePages` throws, the catch at lines 1715-1741
attempts exactly one fallback screenshot: on success the function returns
that single shot, on failure it throws a capture error. -/
def convertDocSendToPDF (o : RunOutcome) : RunResult :=
  if o.launchOk = false then
    { result := .error "browser launch failed", browserClosed := false,
      fallbackAttempts := 0 }
  else
    match o.gateResult with
    | .error e =>
      { result := .error e, browserClosed := true, fallbackAttempts := 0 }
    | .ok _ =>
      match o.captureResult with
      | .ok shots =>
        { result := .ok shots, browserClosed := true, fallbackAttempts := 0 }
      | .error _ =>
        match o.fallbackShot with
        | .ok shot =>
          { result := .ok [shot], browserClosed := true,
            fallbackAttempts := 1 }
        | .error _ =>
          { result := .error "Failed to capture document content",
            browserClosed := true, fallbackAttempts := 1 }

end Orch

/-- Claim C7 counterexample.  A run in which gating succeeded,
`capturePages` threw, and the fallback screenshot also threw: the
orchestrator returns a Failure ("Failed to capture document content",
part_004 line 1739), not a degraded one-page Success — so a capture-loop
throw after successful gating does not always yield a Success. -/
theorem claim7_counterexample :
    (Orch.convertDocSendToPDF
        { launchOk := true, gateResult := .ok (),
          captureResult := .error "boom",
          fallbackShot := .error "crash" }).result =
      .error "Failed to capture document content" := rfl

/-- Claim C7 (amended).  If the capture loop throws after gating has
succeeded, the orchestrator applies exactly one fallback (the single
best-effort snapshot of whatever is rendered) and closes the browser; when
that fallback snapshot succeeds it returns a degraded one-page Success,
and only when the fallback itself also throws does the request fail, with
the capture error "Failed to capture document content". -/
theorem claim7_amended (o : Orch.RunOutcome) (e : String)
    (hl : o.launchOk = true) (hg : o.gateResult = .ok ())
    (hc : o.captureResult = .error e) :
    (Orch.convertDocSendToPDF o).fallbackAttempts = 1 ∧
    (Orch.convertDocSendToPDF o).browserClosed = true ∧
    (∀ b, o.fallbackShot = .ok b →
      (Orch.convertDocSendToPDF o).result = .ok [b]) ∧
    (∀ e2, o.fallbackShot = .error e2 →
      (Orch.convertDocSendToPDF o).result =
        .error "Failed to capture document content") := by
  unfold Orch.convertDocSendToPDF
  rw [hl, hg, hc]
  refine ⟨?_, ?_, ?_, ?_⟩ <;>
    cases hf : o.fallbackShot <;> simp [hf]

/-- Claim C7 amended theorem evaluated on a concrete run whose capture
loop throws and whose fallback snapshot succeeds with raster [9]. -/
theorem claim7_amended_witness :
    (Orch.convertDocSendToPDF
        { launchOk := true, gateResult := .ok (),
          captureResult := .error "capture failed",
          fallbackShot := .ok [9] }).fallbackAttempts = 1 ∧
    (Orch.convertDocSendToPDF
        { launchOk := true, gateResult := .ok (),
          captureResult := .error "capture failed",
          fallbackShot := .ok [9] }).result = .ok [[9]] := by
  have h := claim7_amended
    { launchOk := true, gateResult := .ok (),
      captureResult := .error "capture failed", fallbackShot := .ok [9] }
    "capture failed" rfl rfl rfl
  exact ⟨h.1, h.2.2.1 [9] rfl⟩

/-- Claim C8.  On every run in which the browser session was acquired
(puppeteer.launch succeeded), every exit path of `convertDocSendToPDF` —
returned captures, gate error, degraded fallback success, or fallback
failure — passes through the finally block and closes the browser before
the request terminates. -/
theorem claim8_theorem (o : Orch.RunOutcome) (hl : o.launchOk = true) :
    (Orch.convertDocSendToPDF o).browserClosed = true := by
  unfold Orch.convertDocSendToPDF
  rw [hl]
  cases hg : o.gateResult with
  | error e => simp
  | ok u =>
    cases hc : o.captureResult with
    | ok shots => simp
    | error e =>
      cases hf : o.fallbackShot <;> simp

/-- Claim C8 theorem evaluated on a concrete run that fails in every
downstream phase: the browser is still closed. -/
theorem claim8_witness :
    (Orch.convertDocSendToPDF
        { launchOk := true, gateResult := .error "gate failed",
          captureResult := .error "x",
          fallbackShot := .error "y" }).browserClosed = true :=
  claim8_theorem
    { launchOk := true, gateResult := .error "gate failed",
      captureResult := .error "x", fallbackShot := .error "y" } rfl

/-- Boolean substring check, the embedding of JS String.includes: the
needle occurs somewhere in the haystack. -/
def strContains (needle : List Char) : List Char → Bool
  | [] => leadsWith needle []
  | c :: rest => leadsWith needle (c :: rest) || strContains needle rest

theorem strContains_iff (needle : List Char) : ∀ hay : List Char,
    strContains needle hay = true ↔ ∃ s t, hay = s ++ (needle ++ t) := by
  intro hay
  induction hay with
  | nil =>
    rw [strContains, leadsWith_iff]
    constructor
    · rintro ⟨t, ht⟩
      exact ⟨[], t, by simpa using ht⟩
    · rintro ⟨s, t, hst⟩
      have hs : s = [] ∧ needle ++ t = [] :=
        List.append_eq_nil.mp hst.symm
      exact ⟨t, by rw [hs.2]⟩
  | cons c rest ih =>
    rw [strContains, Bool.or_eq_true, leadsWith_iff, ih]
    constructor
    · rintro (⟨t, ht⟩ | ⟨s, t, hst⟩)
      · exact ⟨[], t, by simpa using ht⟩
      · exact ⟨c :: s, t, by simp [hst]⟩
    · rintro ⟨s, t, hst⟩
      cases s with
      | nil => exact Or.inl ⟨t, by simpa using hst⟩
      | cons a s' =>
        rw [List.cons_append] at hst
        injection hst with h1 h2
        exact Or.inr ⟨s', t, h2⟩

/-- Occurrences of a needle survive character-wise lowercasing when the
needle's characters are fixed points of Char.toLower. -/
theorem strContains_map_toLower_pw (text : List Char)
    (h : strContains "pw:".toList text = true) :
    strContains "pw:".toList (text.map Char.toLower) = true := by
  obtain ⟨s, t, hst⟩ := (strContains_iff _ text).mp h
  have hpw : "pw:".toList.map Char.toLower = "pw:".toList := by decide
  refine (strContains_iff _ _).mpr
    ⟨s.map Char.toLower, t.map Char.toLower, ?_⟩
  rw [hst, List.map_append, List.map_append, hpw]

namespace HardcodedRev

/-- src/unnamed/part_004 line 231 (the revision embedding a hard-coded
credential; src/unnamed/part_007 line 231 keys the same flag on the URL
instead): the triggering message text, lowercased, contains "pw:". -/
def requiresPassword (messageText : List Char) : Bool :=
  strContains "pw:".toList (messageText.map Char.toLower)

/-- src/unnamed/part_004 line 232: the passcode later typed into the form
(line 434) is the fixed literal, regardless of what follows "pw:" in the
message; null when the marker is absent. -/
def docsendPassword (messageText : List Char) : Option (List Char) :=
  if requiresPassword messageText then some "landofthefr33".toList else none

/-- src/unnamed/part_004 line 356: the password-entry workflow runs only
when the marker was present and the document URL contains the one
hard-coded document id. -/
def attemptsPasscodeEntry (messageText url : List Char) : Bool :=
  requiresPassword messageText && strContains "pmfv4ph82dsfjeg6".toList url

end HardcodedRev

/-- Claim C10.  In the revision with the hard-coded credential
(src/unnamed/part_004 lines 230-233, 355-357), whenever the triggering
message text contains the substring "pw:", the passcode that would be
entered is always the fixed literal "landofthefr33" — identical for any
two messages carrying the marker, so the token value after "pw:" is
ignored — and the passcode-entry workflow is attempted only when the
document URL contains the substring "pmfv4ph82dsfjeg6". -/
theorem claim10_theorem (messageText url : List Char)
    (h : strContains "pw:".toList messageText = true) :
    HardcodedRev.requiresPassword messageText = true ∧
    HardcodedRev.docsendPassword messageText =
      some "landofthefr33".toList ∧
    (∀ other : List Char, strContains "pw:".toList other = true →
      HardcodedRev.docsendPassword other =
        HardcodedRev.docsendPassword messageText) ∧
    (HardcodedRev.attemptsPasscodeEntry messageText url = true →
      strContains "pmfv4ph82dsfjeg6".toList url = true) := by
  have hpass : ∀ text : List Char, strContains "pw:".toList text = true →
      HardcodedRev.docsendPassword text = some "landofthefr33".toList := by
    intro text htext
    have hreq : HardcodedRev.requiresPassword text = true :=
      strContains_map_toLower_pw text htext
    simp [HardcodedRev.docsendPassword, hreq]
  have hreq : HardcodedRev.requiresPassword messageText = true :=
    strContains_map_toLower_pw messageText h
  refine ⟨hreq, hpass messageText h, ?_, ?_⟩
  · intro other hother
    rw [hpass other hother, hpass messageText h]
  · intro hatt
    unfold HardcodedRev.attemptsPasscodeEntry at hatt
    exact (Bool.and_eq_true _ _).mp hatt |>.2

/-- Claim C10 theorem evaluated on the message "pw: hunter2" (whose token
value differs from the hard-coded literal) and a URL containing the
hard-coded document id. -/
theorem claim10_witness :
    HardcodedRev.requiresPassword "pw: hunter2".toList = true ∧
    HardcodedRev.docsendPassword "pw: hunter2".toList =
      some "landofthefr33".toList ∧
    (∀ other : List Char, strContains "pw:".toList other = true →
      HardcodedRev.docsendPassword other =
        HardcodedRev.docsendPassword "pw: hunter2".toList) ∧
    (HardcodedRev.attemptsPasscodeEntry "pw: hunter2".toList
        "https://docsend.com/view/pmfv4ph82dsfjeg6".toList = true →
      strContains "pmfv4ph82dsfjeg6".toList
        "https://docsend.com/view/pmfv4ph82dsfjeg6".toList = true) :=
  claim10_theorem "pw: hunter2".toList
    "https://docsend.com/view/pmfv4ph82dsfjeg6".toList (by decide)

/-- Embedding of the regex match messageText.match(/pw:([^\s]+)/i) used at
src/unnamed/part_004 line 1563: scan for a case-insensitive "pw:" followed
by at least one non-whitespace character, returning the first such token
(the captured group), or none — JS null — when no position matches. -/
def pwToken : List Char → Option (List Char)
  | [] => none
  | c :: rest =>
    match rest with
    | w :: d :: tail =>
      if (c = 'p' ∨ c = 'P') ∧ (w = 'w' ∨ w = 'W') ∧ d = ':' then
        let v := tail.takeWhile (fun ch => !ch.isWhitespace)
        if v.isEmpty then pwToken rest else some v
      else pwToken rest
    | _ => none

namespace PwTokenRev

/-- Embedding of the passcode section of `convertDocSendToPDF`
(src/unnamed/part_004 lines 1662-1710, the revision starting at line
1477).  The whole passcode workflow is guarded by `if (docsendPassword)`:
when the message carries no pw: token the section is skipped entirely and
the function proceeds to `capturePages`, whatever the page shows.  When a
token is present, the passcode input is searched for in the page and all
frames; if none is found the function throws "Passcode input field not
found", otherwise the passcode is typed and submitted.  The returned Bool
records whether passcode entry happened. -/
def passcodeStep (messageText : List Char) (passInputFound : Bool) :
    Except String Bool :=
  match pwToken messageText with
  | none => .ok false
  | some _ =>
    if passInputFound then .ok true
    else .error "Passcode input field not found"

end PwTokenRev

namespace UrlPasswordRev

/-- Embedding of `extractPasswordFromUrl` (src/unnamed/part_004 lines
1183-1186): the regex /[?&]password=([^&]+)/ — a '?' or '&', the literal
"password=", then at least one non-'&' character; the first such value is
returned (decodeURIComponent is dropped: only presence or absence of a
value matters to the claims). -/
def extractPasswordFromUrl : List Char → Option (List Char)
  | [] => none
  | c :: rest =>
    if (c = '?' ∨ c = '&') ∧ leadsWith "password=".toList rest = true then
      let v := (rest.drop 9).takeWhile (fun ch => ch != '&')
      if v.isEmpty then extractPasswordFromUrl rest else some v
    else extractPasswordFromUrl rest

/-- Embedding of the password-page handling of `convertDocSendToPDF`
(src/unnamed/part_004 lines 1219-1240, the revision starting at line
1189): when a password input is present, use the URL-embedded password if
any, else the configured DOCSEND_PASSWORD, else throw the user-facing
error; when no password input is present, do nothing.  The returned Bool
records whether a passcode was typed and submitted. -/
def passcodePhase (isPasswordPage : Bool) (url : List Char)
    (envPassword : Option (List Char)) : Except String Bool :=
  if isPasswordPage then
    match extractPasswordFromUrl url with
    | some _ => .ok true
    | none =>
      match envPassword with
      | some _ => .ok true
      | none =>
        .error "This DocSend link requires a password. Please provide it in the URL or set a default password in the environment variables."
  else .ok false

end UrlPasswordRev

/-- Claim C9 counterexample.  In the pw:-token revision (src/unnamed/part_004
lines 1662-1710), with a passcode input structurally present but no pw:
token in the triggering message (and no other passcode source — that
revision has none), the conversion does not fail: the guard
`if (docsendPassword)` skips the whole passcode section and proceeds,
returning ok rather than a fatal error. -/
theorem claim9_counterexample :
    PwTokenRev.passcodeStep "please convert this deck".toList true =
      .ok false := rfl

/-- Claim C9 (amended).  Only the URL-password revision
(src/unnamed/part_004 lines 1189-1240) behaves as claimed: with a password
page present, no password in the URL and no configured default, it fails
with the fatal user-facing error.  The pw:-token revision
(src/unnamed/part_004 lines 1662-1710) skips passcode entry entirely
whenever the message carries no pw: token, proceeding to capture even when
the passcode input is present. -/
theorem claim9_amended (url messageText : List Char) (passInputFound : Bool)
    (hurl : UrlPasswordRev.extractPasswordFromUrl url = none)
    (htok : pwToken messageText = none) :
    UrlPasswordRev.passcodePhase true url none =
      .error "This DocSend link requires a password. Please provide it in the URL or set a default password in the environment variables." ∧
    PwTokenRev.passcodeStep messageText passInputFound = .ok false := by
  constructor
  · unfold UrlPasswordRev.passcodePhase
    rw [if_pos rfl, hurl]
  · unfold PwTokenRev.passcodeStep
    rw [htok]

/-- Claim C9 amended theorem evaluated on a concrete password-less URL and
a concrete message without a pw: token, with the passcode input present. -/
theorem claim9_witness :
    UrlPasswordRev.passcodePhase true "https://docsend.com/view/abc".toList
        none =
      .error "This DocSend link requires a password. Please provide it in the URL or set a default password in the environment variables." ∧
    PwTokenRev.passcodeStep "convert the deck".toList true = .ok false :=
  claim9_amended "https://docsend.com/view/abc".toList
    "convert the deck".toList true (by rfl) (by rfl)
